import Mathlib

/-!
Shallow embedding of the Feynman-diagram drawing tool (`streamlit_app.py`).

The core pipeline is embedded faithfully from the source:
  * the fixed color table `color_map`,
  * the classifier `color_to_type`,
  * the canvas-object parser `parse_canvas_objects`,
  * the raster renderer's per-edge styling (`render_diagram_matplotlib`),
  * the TikZ markup generator `generate_tikz`,
  * the two export button handlers.

Modelling conventions:
  * Python strings are Lean `String`; Python `str.lower` is `lower` below
    (ASCII case folding, which coincides with Python on the hex color
    strings the claims are about); Python substring containment `a in b`
    is `isSub`.
  * Numbers carried by canvas shape records are modelled as exact
    rationals (`Rat`); Python float literals `0.7` and `0.001` are the
    rationals `7/10` and `1/1000`.
  * A possibly-absent dictionary entry is an `Option`; `none` is an
    absent key (or Python `None`).
  * Code that would raise a `TypeError` in Python (arithmetic or
    formatting applied to `None`) is modelled as returning `none`.
-/

/-- ASCII lower-casing of a string, modelling Python `str.lower()` on the
(ASCII) color strings manipulated by the program. -/
def lower (s : String) : String := String.mk (s.data.map Char.toLower)

/-- Boolean prefix test on character lists. -/
def isPrefixL : List Char → List Char → Bool
  | [], _ => true
  | _ :: _, [] => false
  | a :: as, b :: bs => a == b && isPrefixL as bs

/-- Boolean contiguous-substring test on character lists, modelling
Python `needle in hay` on strings (the empty needle always matches). -/
def isSubL : List Char → List Char → Bool
  | n, [] => isPrefixL n []
  | n, h :: hs => isPrefixL n (h :: hs) || isSubL n hs

/-- Python `needle in hay` substring containment on strings. -/
def isSub (needle hay : String) : Bool := isSubL needle.data hay.data

attribute [local semireducible] Rat.sub Rat.add Rat.mul Rat.inv

/-- Python `str.lstrip("#")`: drop every leading `#` character. -/
def dropLeadingHash : List Char → List Char
  | [] => []
  | c :: rest => if c == '#' then dropLeadingHash rest else c :: rest

/-- Python `s.lstrip("#")` on strings. -/
def lstripHash (s : String) : String := String.mk (dropLeadingHash s.data)

/-- The fixed particle-type → stroke-color table (`color_map` in the source),
in its source insertion order.  Particle types are the literal (Spanish)
strings the program uses; `"desconocido"` stands for Unknown. -/
def color_map : List (String × String) :=
  [("vértice (vertex)", "#000000"),
   ("fermion (→/←)", "#1f77b4"),
   ("antifermion (←/→)", "#ff7f0e"),
   ("fotón (photon)", "#2ca02c"),
   ("gluón (gluon)", "#d62728"),
   ("línea neutra (línea simple)", "#9467bd")]

/-- First table entry whose color equals (case-insensitively) the lowered
input; the first loop of `color_to_type`.  `t` is the already-lowered
input string (Python lowers it once per comparison, same value). -/
def lookupExact : List (String × String) → String → Option String
  | [], _ => none
  | (k, v) :: rest, t => if lower v == t then some k else lookupExact rest t

/-- First table entry whose color (lowered, leading `#` stripped) occurs
as a substring of the lowered input; the second loop of `color_to_type`. -/
def lookupSub : List (String × String) → String → Option String
  | [], _ => none
  | (k, v) :: rest, t =>
    if isSub (lstripHash (lower v)) t then some k else lookupSub rest t

/-- The shape classifier `color_to_type` from `parse_canvas_objects`:
exact case-insensitive match against the color table, then lenient
substring match of the table color's hex digits, else `"desconocido"`. -/
def color_to_type (hexcolor : String) : String :=
  match lookupExact color_map (lower hexcolor) with
  | some k => k
  | none =>
    match lookupSub color_map (lower hexcolor) with
    | some k => k
    | none => "desconocido"

/-- One entry of a freeform path's `points` list; each coordinate may be
absent (Python `p.get("x", 0)` defaults it to 0). -/
structure Pt where
  x : Option Rat := none
  y : Option Rat := none
deriving DecidableEq

/-- A raw drawn-shape record from the drawing canvas: a loosely-structured
mapping, each key possibly absent (`none`).  `type` is the fabric.js kind
discriminator (`"circle"`, `"ellipse"`, `"line"`, `"path"`, ...). -/
structure Obj where
  type : Option String := none
  stroke : Option String := none
  strokeStyle : Option String := none
  left : Option Rat := none
  top : Option Rat := none
  radiusX : Option Rat := none
  rx : Option Rat := none
  radiusY : Option Rat := none
  ry : Option Rat := none
  x1 : Option Rat := none
  y1 : Option Rat := none
  x2 : Option Rat := none
  y2 : Option Rat := none
  points : Option (List Pt) := none
  width : Option Rat := none
  height : Option Rat := none
deriving DecidableEq

/-- A parsed vertex marker (`nodes` entries of `parse_canvas_objects`).
Circle geometry fields are always defaulted by the parser, so the
coordinates are genuine numbers.  `raw` is the originating shape. -/
structure Node where
  id : Nat
  x : Rat
  y : Rat
  type : String
  raw : Obj
deriving DecidableEq

/-- A parsed propagator segment (`edges` entries of `parse_canvas_objects`).
For a `line` shape with `x1` present, the remaining endpoint fields are
taken as-is from the record and may be absent (Python `None`), hence
`Option Rat`. -/
structure Edge where
  x1 : Option Rat
  y1 : Option Rat
  x2 : Option Rat
  y2 : Option Rat
  type : String
  raw : Obj
deriving DecidableEq

/-- Python truthiness of a possibly-absent string: absent and `""` are
falsy. -/
def truthy : Option String → Bool
  | none => false
  | some s => s ≠ ""

/-- The stroke-color extraction of `parse_canvas_objects`:
`obj.get("stroke", "").lower() if obj.get("stroke") else
 obj.get("strokeStyle", "").lower() if obj.get("strokeStyle") else ""`. -/
def getStroke (o : Obj) : String :=
  if truthy o.stroke then lower (o.stroke.getD "")
  else if truthy o.strokeStyle then lower (o.strokeStyle.getD "")
  else ""

/-- Python `obj.get(k1, obj.get(k2, d))`: first key if present, else the
second, else the default. -/
def getKey2 (a b : Option Rat) (d : Rat) : Rat :=
  match a with
  | some v => v
  | none =>
    match b with
    | some v => v
    | none => d

/-- The circle/ellipse branch of `parse_canvas_objects`: a `Node` at the
bounding-box center `(left + radiusX, top + radiusY)`, with `left`/`top`
defaulting to 0 and each radius to 10, typed from the stroke color. -/
def mkNode (i : Nat) (o : Obj) : Node :=
  { id := i
    x := o.left.getD 0 + getKey2 o.radiusX o.rx 10
    y := o.top.getD 0 + getKey2 o.radiusY o.ry 10
    type := color_to_type (getStroke o)
    raw := o }

/-- The line/path branch of `parse_canvas_objects`.  If `x1` is present the
four endpoint fields are read directly (absent ones stay absent); else a
points list of length ≥ 2 gives `origin + first point` / `origin + last
point`; else the bounding box itself is the segment. -/
def mkEdge (o : Obj) : Edge :=
  match o.x1 with
  | some v =>
    { x1 := some v, y1 := o.y1, x2 := o.x2, y2 := o.y2
      type := color_to_type (getStroke o), raw := o }
  | none =>
    let left := o.left.getD 0
    let top := o.top.getD 0
    let pts := o.points.getD []
    if pts.length ≥ 2 then
      let p0 := pts.headD {}
      let pN := pts.getLastD {}
      { x1 := some (left + p0.x.getD 0), y1 := some (top + p0.y.getD 0)
        x2 := some (left + pN.x.getD 0), y2 := some (top + pN.y.getD 0)
        type := color_to_type (getStroke o), raw := o }
    else
      let w := o.width.getD 0
      let h := o.height.getD 0
      { x1 := some left, y1 := some top
        x2 := some (left + w), y2 := some (top + h)
        type := color_to_type (getStroke o), raw := o }

/-- Does the shape take the circle/ellipse branch of the parser? -/
def isCircleObj (o : Obj) : Bool :=
  o.type == some "circle" || o.type == some "ellipse"

/-- Does the shape take the line/path branch of the parser? -/
def isLineObj (o : Obj) : Bool :=
  o.type == some "line" || o.type == some "path"

/-- The scan loop of `parse_canvas_objects`: walks the shape list in order
carrying the next node id; circles/ellipses append a `Node` (and bump the
id), lines/paths append an `Edge`, anything else is skipped. -/
def parseGo : List Obj → Nat → List Node × List Edge
  | [], _ => ([], [])
  | o :: rest, nid =>
    if isCircleObj o then
      let r := parseGo rest (nid + 1)
      (mkNode nid o :: r.1, r.2)
    else if isLineObj o then
      let r := parseGo rest nid
      (r.1, mkEdge o :: r.2)
    else parseGo rest nid

/-- `parse_canvas_objects(json_data)`: `none` models a falsy `json_data` or
one without an `"objects"` key (both return `([], [])`); otherwise the
shape list is scanned with node ids starting at 0. -/
def parse_canvas_objects (json_data : Option (List Obj)) : List Node × List Edge :=
  match json_data with
  | none => ([], [])
  | some objects => parseGo objects 0

/-- The concrete circle shape used by the spec's circle test. -/
def circleObj : Obj :=
  { type := some "circle",
    stroke := some "#1f77b4",
    left := some 10,
    top := some 20,
    radiusX := some 5,
    radiusY := some 5 }


/-- Round `10 * q` to the nearest integer, ties to even (the rounding of
Python's fixed-point formatting, on exact rational inputs).  Stated with
integer arithmetic on the numerator and denominator only. -/
def rhe10 (q : Rat) : Int :=
  let n : Int := q.num * 10
  let d : Int := (q.den : Int)
  let f : Int := Int.fdiv n d
  let r2 : Int := 2 * (n - f * d)
  if r2 < d then f
  else if d < r2 then f + 1
  else if f % 2 = 0 then f else f + 1

/-- Python `f"{q:.1f}"` on an exact rational value: fixed one-decimal
formatting. -/
def fmt1 (q : Rat) : String :=
  let n := rhe10 q
  let sign := if n < 0 then "-" else ""
  let a := n.natAbs
  sign ++ toString (a / 10) ++ "." ++ toString (a % 10)

/-- The per-edge TikZ styling dispatch of `generate_tikz`: the pair
`(style, extra)`, where `style` starts as the default `"->"` and `extra`
as `""`, and the type string is tested by substring in source order. -/
def tikz_edge_style (typ : String) : String × String :=
  if isSub "fotón" typ || isSub "photon" typ then ("", "[photon]")
  else if isSub "gluón" typ then ("", "[gluon]")
  else if isSub "fermion" typ then ("->", "")
  else if isSub "antifermion" typ then ("<-", "")
  else if isSub "línea neutra" typ then ("", "")
  else ("->", "")

/-- One `\node` declaration of `generate_tikz`: label is the node id and
the y coordinate is flipped to `height - y`. -/
def tikz_node_line (height : Rat) (n : Node) : String :=
  "\\node[draw, circle, inner sep=1pt] (n" ++ toString n.id ++ ") at ("
    ++ fmt1 n.x ++ "," ++ fmt1 (height - n.y) ++ ") \x7b" ++ toString n.id ++ "\x7d;"

/-- One `\draw` declaration of `generate_tikz`.  `none` models the Python
`TypeError` that `height - None` / formatting `None` would raise when an
endpoint field is absent. -/
def tikz_edge_line (height : Rat) (e : Edge) : Option String :=
  match e.x1, e.y1, e.x2, e.y2 with
  | some x1, some y1, some x2, some y2 =>
    let st := tikz_edge_style e.type
    some ("\\draw" ++ st.2 ++ " (" ++ fmt1 x1 ++ "," ++ fmt1 (height - y1)
      ++ ") " ++ st.1 ++ " -- (" ++ fmt1 x2 ++ "," ++ fmt1 (height - y2) ++ ");")
  | _, _, _, _ => none

/-- The fixed TikZ preamble emitted by `generate_tikz`. -/
def tikz_header : String :=
  "% TikZ generado automáticamente\n"
    ++ "\\begin\x7btikzpicture\x7d[scale=0.035, >=Stealth]\n"
    ++ "\\tikzset\x7bphoton/.style=\x7bdecorate, decoration=\x7bsnake, amplitude=1.2mm\x7d, line width=1pt\x7d\x7d\n"
    ++ "\\tikzset\x7bgluon/.style=\x7bdecorate, decoration=\x7bcoil, aspect=0.6, segment length=2pt\x7d, line width=1pt\x7d\x7d\n"

/-- The fixed TikZ closing directive emitted by `generate_tikz`. -/
def tikz_footer : String := "\\end\x7btikzpicture\x7d\n"

/-- `generate_tikz(nodes, edges, width, height)`.  The `width` parameter
(and the unused `scale_x`/`scale_y` of the source) does not influence the
output; only `height` does, through the vertical flip. -/
def generate_tikz (nodes : List Node) (edges : List Edge)
    (width height : Rat) : Option String :=
  (edges.mapM (tikz_edge_line height)).map (fun edge_lines =>
    tikz_header ++ String.intercalate "\n" (nodes.map (tikz_node_line height))
      ++ "\n" ++ String.intercalate "\n" edge_lines ++ "\n" ++ tikz_footer)

/-- `color_map[k]` for the literal keys used by the renderer. -/
def cmGet (k : String) : String :=
  ((color_map.find? (fun p => p.1 == k)).map (fun p => p.2)).getD ""

/-- The per-edge styling state of `render_diagram_matplotlib` after the
substring dispatch: matplotlib color, linestyle and whether an arrowhead
is added. -/
structure EdgeStyle where
  color : String
  linestyle : String
  arrow : Bool
deriving DecidableEq

/-- The substring dispatch of `render_diagram_matplotlib`, in source
order; defaults are dark gray `#222222`, solid, no arrow. -/
def render_edge_style (typ : String) : EdgeStyle :=
  if isSub "fermion" typ then
    { color := cmGet "fermion (→/←)", linestyle := "solid", arrow := true }
  else if isSub "antifermion" typ then
    { color := cmGet "antifermion (←/→)", linestyle := "solid", arrow := true }
  else if isSub "fotón" typ || isSub "photon" typ then
    { color := cmGet "fotón (photon)", linestyle := "dashdot", arrow := false }
  else if isSub "gluón" typ then
    { color := cmGet "gluón (gluon)", linestyle := "dashed", arrow := false }
  else if isSub "línea neutra" typ then
    { color := cmGet "línea neutra (línea simple)", linestyle := "solid", arrow := false }
  else { color := "#222222", linestyle := "solid", arrow := false }

/-- Primitive drawing commands issued by `render_diagram_matplotlib`:
`ax.plot` segments, `FancyArrowPatch` arrowheads, node disks
(`Circle(..., radius=8, color="k")`) and node labels (`ax.text`). -/
inductive Draw where
  | line (p1 p2 : Rat × Rat) (linestyle : String) (linewidth : Rat) (color : String)
  | arrow (src dst : Rat × Rat) (arrowstyle : String) (mutationScale : Rat)
      (color : String) (linewidth : Rat)
  | disk (center : Rat × Rat) (radius : Rat) (color : String)
  | label (pos : Rat × Rat) (txt : String)
deriving DecidableEq

/-- The commands drawn for one edge by `render_diagram_matplotlib`: the
`ax.plot` segment, plus — when the style asks for an arrow — a
`FancyArrowPatch` at 70% of the way from endpoint 1 to endpoint 2,
pointing along the segment (`dx,dy = 0.001 * delta`).  `none` models the
`TypeError` matplotlib arithmetic would raise on an absent endpoint. -/
def render_edge (e : Edge) : Option (List Draw) :=
  match e.x1, e.y1, e.x2, e.y2 with
  | some x1, some y1, some x2, some y2 =>
    let st := render_edge_style e.type
    let base := Draw.line (x1, y1) (x2, y2) st.linestyle 2 st.color
    if st.arrow then
      let sx := x1 + 7/10 * (x2 - x1)
      let sy := y1 + 7/10 * (y2 - y1)
      let dx := (x2 - x1) * (1/1000)
      let dy := (y2 - y1) * (1/1000)
      some [base, Draw.arrow (sx, sy) (sx + dx, sy + dy) "-|>" 15 st.color 0]
    else some [base]
  | _, _, _, _ => none

/-- Python `s.split()[0]` on the whitespace-separated type names; total
(`""` instead of an `IndexError` on an all-whitespace string, which no
table type name is). -/
def firstTok (s : String) : String :=
  ((s.split Char.isWhitespace).filter (fun t => t ≠ "")).headD ""

/-- The commands drawn for one node by `render_diagram_matplotlib`: a
black disk of radius 8 and a short label at offset `(+10, -10)`. -/
def render_node (n : Node) : List Draw :=
  [Draw.disk (n.x, n.y) 8 "k",
   Draw.label (n.x + 10, n.y - 10)
     (if n.type ≠ "desconocido" then firstTok n.type else "N")]

/-- `render_diagram_matplotlib(nodes, edges)` as the ordered list of
drawing commands it issues: all edges in order, then all nodes (nodes are
drawn last, above the edges).  Figure setup (size, inverted y axis, PNG
encoding) is presentation plumbing and not part of the command list. -/
def render_diagram_matplotlib (nodes : List Node) (edges : List Edge) :
    Option (List Draw) :=
  (edges.mapM render_edge).map (fun eds => eds.flatten ++ nodes.flatMap render_node)

/-- The PNG-export button handler: refuses with a user-facing error when
there is nothing to draw, otherwise renders. -/
def png_export_click (nodes : List Node) (edges : List Edge) :
    Except String (Option (List Draw)) :=
  if nodes.length + edges.length = 0 then
    Except.error "No hay objetos en el lienzo para exportar."
  else Except.ok (render_diagram_matplotlib nodes edges)

/-- The TikZ-export button handler: refuses with a user-facing error when
there is nothing to convert, otherwise generates the markup at the fixed
canvas size 800×400. -/
def tikz_export_click (nodes : List Node) (edges : List Edge) :
    Except String (Option String) :=
  if nodes.length + edges.length = 0 then
    Except.error "No hay objetos para convertir a TikZ."
  else Except.ok (generate_tikz nodes edges 800 400)

/-- Is an `Except` result the error case? (statement-side extractor). -/
def isErr {ε α : Type} : Except ε α → Bool
  | Except.error _ => true
  | Except.ok _ => false

/-- The color carried by a drawing command (statement-side extractor;
`""` for label commands, which carry no color). -/
def drawColor : Draw → String
  | Draw.line _ _ _ _ c => c
  | Draw.arrow _ _ _ _ c _ => c
  | Draw.disk _ _ c => c
  | Draw.label _ _ => ""

/-- The concrete ellipse shape used to witness the general circle/ellipse
clause of the parser claims. -/
def ellipseObj : Obj :=
  { type := some "ellipse",
    stroke := some "#2ca02c",
    left := some 1,
    top := some 2,
    radiusX := some 3,
    radiusY := some 4 }

/-- A circle shape with every geometry field absent. -/
def bareCircleObj : Obj :=
  { type := some "circle", stroke := some "#d62728" }

/-- An unsupported (rectangle) shape. -/
def rectObj : Obj :=
  { type := some "rect", stroke := some "#000000" }

/-- A line shape with `x1` present but `y1`, `x2`, `y2` absent. -/
def partialLineObj : Obj :=
  { type := some "line", x1 := some 5, stroke := some "#9467bd" }

/-- A concrete Antifermion edge. -/
def antifermionEdge : Edge :=
  { x1 := some 10, y1 := some 20, x2 := some 110, y2 := some 10,
    type := "antifermion (←/→)", raw := {} }

/-- A concrete Unknown edge. -/
def unknownEdge : Edge :=
  { x1 := some 0, y1 := some 0, x2 := some 100, y2 := some 0,
    type := "desconocido", raw := {} }

/-- Statement-side constructor: an edge with all four endpoint
coordinates present. -/
def mkE (a b c d : Rat) (typ : String) (raw : Obj) : Edge :=
  { x1 := some a, y1 := some b, x2 := some c, y2 := some d, type := typ, raw := raw }

/-- Statement-side template of an emitted `\draw` declaration: the extra
style tag, the four formatted coordinates and the arrow directive, in
emission order. -/
def tikz_draw_template (extra x1s y1s st x2s y2s : String) : String :=
  "\\draw" ++ extra ++ " (" ++ x1s ++ "," ++ y1s ++ ") " ++ st ++ " -- ("
    ++ x2s ++ "," ++ y2s ++ ");"

/-- An ellipse carrying only the fabric.js fallback radius keys `rx`/`ry`
(with `radiusX`/`radiusY` and `top` absent). -/
def rxEllipseObj : Obj :=
  { type := some "ellipse", stroke := some "#ff7f0e",
    left := some 7, rx := some 2, ry := some 6 }

/-- A circle with origin present but all four radius keys absent. -/
def plainCircleObj : Obj :=
  { type := some "circle", left := some 3, top := some 4 }

/-- The local points of the concrete freeform path shape. -/
def pathPts : List Pt :=
  [{ x := some 1, y := some 2 }, { x := some 3 }, { x := some 5, y := some 8 }]

/-- A freeform path shape: `x1` absent, with a points list of length 3. -/
def pathObj : Obj :=
  { type := some "path", stroke := some "#2ca02c",
    left := some 100, top := some 50, points := some pathPts }

/-- A line shape with `x1` absent and no points list: only a bounding
box. -/
def bareLineObj : Obj :=
  { type := some "line", stroke := some "#d62728",
    left := some 4, top := some 6, width := some 20, height := some 10 }

lemma lookupExact_eq_none (l : List (String × String)) (t : String)
    (h : ∀ p ∈ l, lower p.2 ≠ t) : lookupExact l t = none := by
  induction l with
  | nil => rfl
  | cons p rest ih =>
    obtain ⟨k, v⟩ := p
    have hv : ¬ ((lower v == t) = true) := by
      simp only [beq_iff_eq]
      exact h (k, v) (List.mem_cons_self _ _)
    simp only [lookupExact, if_neg hv]
    exact ih fun q hq => h q (List.mem_cons_of_mem _ hq)

lemma lookupSub_eq_none (l : List (String × String)) (t : String)
    (h : ∀ p ∈ l, isSub (lstripHash (lower p.2)) t = false) :
    lookupSub l t = none := by
  induction l with
  | nil => rfl
  | cons p rest ih =>
    obtain ⟨k, v⟩ := p
    have hv : ¬ (isSub (lstripHash (lower v)) t = true) := by
      simp [h (k, v) (List.mem_cons_self _ _)]
    simp only [lookupSub, if_neg hv]
    exact ih fun q hq => h q (List.mem_cons_of_mem _ hq)

lemma circle_kinds (o : Obj) (h : isCircleObj o = true) :
    o.type = some "circle" ∨ o.type = some "ellipse" := by
  simpa [isCircleObj] using h

lemma circle_not_line (o : Obj) (h : isCircleObj o = true) :
    isLineObj o = false := by
  rcases circle_kinds o h with h2 | h2 <;> simp [isLineObj, h2]

lemma line_not_circle (o : Obj) (h : isLineObj o = true) :
    isCircleObj o = false := by
  rcases (by simpa [isLineObj] using h : o.type = some "line" ∨
    o.type = some "path") with h2 | h2 <;> simp [isCircleObj, h2]

/-- The nested-`get` default chain, written with `Option.getD`. -/
lemma getKey2_eq_getD (a b : Option Rat) (d : Rat) :
    getKey2 a b d = a.getD (b.getD d) := by
  cases a <;> cases b <;> rfl

/-- The scan loop, characterized: nodes are the circle shapes numbered
from the running counter, edges the line shapes, each in input order. -/
lemma parseGo_eq (objs : List Obj) (k : Nat) :
    parseGo objs k =
      ((List.range' k (objs.filter isCircleObj).length).zipWith mkNode
         (objs.filter isCircleObj),
       (objs.filter isLineObj).map mkEdge) := by
  induction objs generalizing k with
  | nil => rfl
  | cons o rest ih =>
    by_cases hC : isCircleObj o = true
    · have hL := circle_not_line o hC
      simp [parseGo, hC, hL, List.filter_cons, ih, List.range'_succ]
    · by_cases hL : isLineObj o = true
      · simp [parseGo, hC, hL, List.filter_cons, ih]
      · simp [parseGo, hC, hL, List.filter_cons, ih]

lemma zipWith_left_eq {α β : Type} :
    ∀ (as : List α) (bs : List β), as.length = bs.length →
      List.zipWith (fun a _ => a) as bs = as
  | [], [], _ => rfl
  | [], _ :: _, h => by simp at h
  | _ :: _, [], h => by simp at h
  | a :: as, b :: bs, h => by
    simp only [List.zipWith_cons_cons]
    rw [zipWith_left_eq as bs (by simpa using h)]

/-- An unsupported shape anywhere in the list contributes nothing: the
scan result with it is the scan result without it. -/
lemma parseGo_skip (o : Obj) (hC : isCircleObj o = false)
    (hL : isLineObj o = false) :
    ∀ (xs ys : List Obj) (k : Nat),
      parseGo (xs ++ o :: ys) k = parseGo (xs ++ ys) k := by
  intro xs
  induction xs with
  | nil => intro ys k; simp [parseGo, hC, hL]
  | cons x rest ih =>
    intro ys k
    simp only [List.cons_append, parseGo]
    by_cases hx : isCircleObj x = true
    · simp [hx, ih]
    · by_cases hlx : isLineObj x = true
      · simp [hx, hlx, ih]
      · simp [hx, hlx, ih]

lemma isPrefixL_iff (a : List Char) : ∀ b : List Char,
    isPrefixL a b = true ↔ a <+: b := by
  induction a with
  | nil => intro b; simp [isPrefixL, List.nil_prefix]
  | cons c cs ih =>
    intro b
    cases b with
    | nil => simp [isPrefixL, List.prefix_nil]
    | cons d ds => simp [isPrefixL, ih, List.cons_prefix_cons]

lemma isSubL_iff (n : List Char) : ∀ h : List Char,
    isSubL n h = true ↔ n <:+: h := by
  intro h
  induction h with
  | nil => simp [isSubL, isPrefixL_iff, List.prefix_nil, List.infix_nil]
  | cons c hs ih =>
    rw [show isSubL n (c :: hs) = (isPrefixL n (c :: hs) || isSubL n hs) from rfl]
    simp [isPrefixL_iff, ih, List.infix_cons_iff]

/-- Any string containing `"antifermion"` also contains `"fermion"`. -/
lemma isSub_fermion_of_antifermion (t : String)
    (h : isSub "antifermion" t = true) : isSub "fermion" t = true := by
  have h1 : ("antifermion".data) <:+: t.data := (isSubL_iff _ _).mp h
  have h2 : ("fermion".data) <:+: ("antifermion".data) :=
    (isSubL_iff _ _).mp (by decide)
  exact (isSubL_iff _ _).mpr (h2.trans h1)

/-- C3: each of the six fixed table colors classifies (case-insensitively)
to its particle type; an input that matches no table color exactly and
contains no table color's hex digits as a substring — e.g. `"#000001"` or
the empty string — classifies to Unknown (`"desconocido"`). -/
theorem color_to_type_spec :
    (∀ s : String, lower s = "#000000" → color_to_type s = "vértice (vertex)")
  ∧ (∀ s : String, lower s = "#1f77b4" → color_to_type s = "fermion (→/←)")
  ∧ (∀ s : String, lower s = "#ff7f0e" → color_to_type s = "antifermion (←/→)")
  ∧ (∀ s : String, lower s = "#2ca02c" → color_to_type s = "fotón (photon)")
  ∧ (∀ s : String, lower s = "#d62728" → color_to_type s = "gluón (gluon)")
  ∧ (∀ s : String, lower s = "#9467bd" → color_to_type s = "línea neutra (línea simple)")
  ∧ (∀ s : String,
      (∀ p ∈ color_map, lower p.2 ≠ lower s ∧
        isSub (lstripHash (lower p.2)) (lower s) = false) →
      color_to_type s = "desconocido")
  ∧ color_to_type "#000001" = "desconocido"
  ∧ color_to_type "" = "desconocido" := by
  refine ⟨?_, ?_, ?_, ?_, ?_, ?_, ?_, by decide, by decide⟩
  · intro s h; unfold color_to_type; rw [h]; decide
  · intro s h; unfold color_to_type; rw [h]; decide
  · intro s h; unfold color_to_type; rw [h]; decide
  · intro s h; unfold color_to_type; rw [h]; decide
  · intro s h; unfold color_to_type; rw [h]; decide
  · intro s h; unfold color_to_type; rw [h]; decide
  · intro s h
    unfold color_to_type
    rw [lookupExact_eq_none _ _ fun p hp => (h p hp).1,
        lookupSub_eq_none _ _ fun p hp => (h p hp).2]

/-- C3 witness: the classifier evaluated at upper-cased table colors and
at the no-match input `"#000001"`. -/
theorem color_to_type_spec_witness :
    color_to_type "#1F77B4" = "fermion (→/←)"
  ∧ color_to_type "#2CA02C" = "fotón (photon)"
  ∧ color_to_type "#000001" = "desconocido" :=
  ⟨color_to_type_spec.2.1 "#1F77B4" (by decide),
   color_to_type_spec.2.2.2.1 "#2CA02C" (by decide),
   color_to_type_spec.2.2.2.2.2.2.1 "#000001" (by decide)⟩

/-- C4: every circle/ellipse shape yields exactly one `Node` at
`(left + radiusX, top + radiusY)` with per-field defaulting — each
radius falls back to the `rx`/`ry` key and then to 10, and `left`/`top`
to 0 — stated for an arbitrary shape and additionally at the mixed
corners (origin present with radii absent; everything absent; the
`rx`/`ry` fallback); in particular the spec's concrete circle (left=10,
top=20, radii 5, Fermion stroke) yields the single node
`id=0, x=15, y=25, type=Fermion`. -/
theorem parse_circle_node :
    (∀ o : Obj, (o.type = some "circle" ∨ o.type = some "ellipse") →
      parse_canvas_objects (some [o]) =
        ([{ id := 0,
            x := o.left.getD 0 + o.radiusX.getD (o.rx.getD 10),
            y := o.top.getD 0 + o.radiusY.getD (o.ry.getD 10),
            type := color_to_type (getStroke o), raw := o }], []))
  ∧ (∀ (o : Obj) (l t : Rat), (o.type = some "circle" ∨ o.type = some "ellipse") →
      o.left = some l → o.top = some t → o.radiusX = none → o.rx = none →
      o.radiusY = none → o.ry = none →
      parse_canvas_objects (some [o]) =
        ([{ id := 0, x := l + 10, y := t + 10,
            type := color_to_type (getStroke o), raw := o }], []))
  ∧ (∀ o : Obj, (o.type = some "circle" ∨ o.type = some "ellipse") →
      o.left = none → o.top = none → o.radiusX = none → o.rx = none →
      o.radiusY = none → o.ry = none →
      parse_canvas_objects (some [o]) =
        ([{ id := 0, x := 10, y := 10,
            type := color_to_type (getStroke o), raw := o }], []))
  ∧ parse_canvas_objects (some [circleObj]) =
      ([{ id := 0, x := 15, y := 25, type := "fermion (→/←)",
          raw := circleObj }], [])
  ∧ parse_canvas_objects (some [rxEllipseObj]) =
      ([{ id := 0, x := 9, y := 6, type := "antifermion (←/→)",
          raw := rxEllipseObj }], []) := by
  refine ⟨?_, ?_, ?_, by decide, by decide⟩
  · intro o hty
    have hC : isCircleObj o = true := by
      rcases hty with h | h <;> simp [isCircleObj, h]
    simp [parse_canvas_objects, parseGo, hC, mkNode, getKey2_eq_getD]
  · intro o l t hty hl ht hx hrx hy hry
    have hC : isCircleObj o = true := by
      rcases hty with h | h <;> simp [isCircleObj, h]
    simp [parse_canvas_objects, parseGo, hC, mkNode, hl, ht, hx, hrx, hy, hry,
      getKey2]
  · intro o hty hl ht hx hrx hy hry
    have hC : isCircleObj o = true := by
      rcases hty with h | h <;> simp [isCircleObj, h]
    simp [parse_canvas_objects, parseGo, hC, mkNode, hl, ht, hx, hrx, hy, hry,
      getKey2]

/-- C4 witness: the general clauses evaluated at a concrete ellipse with
all geometry present, at a circle with origin present and radii absent,
and at a circle with no geometry fields. -/
theorem parse_circle_node_witness :
    parse_canvas_objects (some [ellipseObj]) =
      ([{ id := 0,
          x := ellipseObj.left.getD 0 + ellipseObj.radiusX.getD (ellipseObj.rx.getD 10),
          y := ellipseObj.top.getD 0 + ellipseObj.radiusY.getD (ellipseObj.ry.getD 10),
          type := color_to_type (getStroke ellipseObj), raw := ellipseObj }], [])
  ∧ parse_canvas_objects (some [plainCircleObj]) =
      ([{ id := 0, x := 3 + 10, y := 4 + 10,
          type := color_to_type (getStroke plainCircleObj),
          raw := plainCircleObj }], [])
  ∧ parse_canvas_objects (some [bareCircleObj]) =
      ([{ id := 0, x := 10, y := 10,
          type := color_to_type (getStroke bareCircleObj),
          raw := bareCircleObj }], []) :=
  ⟨parse_circle_node.1 ellipseObj (Or.inr rfl),
   parse_circle_node.2.1 plainCircleObj 3 4 (Or.inl rfl) rfl rfl rfl rfl rfl rfl,
   parse_circle_node.2.2.1 bareCircleObj (Or.inl rfl) rfl rfl rfl rfl rfl rfl⟩

/-- C5: parsing a shape list yields exactly the circle/ellipse shapes as
nodes — numbered 0, 1, ... in scan order — and exactly the line/path
shapes as edges, each sublist in input order: the output is the input
partitioned by kind. -/
theorem parse_partition (objs : List Obj) :
    (parse_canvas_objects (some objs)).1 =
      (List.range (objs.filter isCircleObj).length).zipWith mkNode
        (objs.filter isCircleObj)
  ∧ (parse_canvas_objects (some objs)).2 = (objs.filter isLineObj).map mkEdge
  ∧ ((parse_canvas_objects (some objs)).1).map Node.id =
      List.range (objs.filter isCircleObj).length
  ∧ ((parse_canvas_objects (some objs)).1).length =
      (objs.filter isCircleObj).length
  ∧ ((parse_canvas_objects (some objs)).2).length =
      (objs.filter isLineObj).length := by
  have hgo := parseGo_eq objs 0
  have h1 : (parse_canvas_objects (some objs)).1 =
      (List.range (objs.filter isCircleObj).length).zipWith mkNode
        (objs.filter isCircleObj) := by
    rw [List.range_eq_range']
    exact congrArg Prod.fst hgo
  have h2 : (parse_canvas_objects (some objs)).2 =
      (objs.filter isLineObj).map mkEdge := congrArg Prod.snd hgo
  refine ⟨h1, h2, ?_, ?_, ?_⟩
  · rw [h1, List.map_zipWith]
    show List.zipWith (fun i _ => i) _ _ = _
    exact zipWith_left_eq _ _ (by simp)
  · rw [h1]; simp
  · rw [h2]; simp

/-- C6 amended: parse is total and never rejects input — an absent or
empty shape list yields `([], [])`, unsupported kinds are silently
excluded, circle geometry defaults are substituted (origin 0, radius
10), and a line/path shape with `x1` absent gets fully defaulted
fallback endpoints (origin + first/last point when a points list of
length ≥ 2 exists, else the bounding box, every field defaulting to 0)
— but for a line shape whose `x1` is present the remaining endpoint
fields are carried over as-is, absent ones staying absent rather than
being filled with a default. -/
theorem parse_total_amended :
    parse_canvas_objects none = ([], [])
  ∧ parse_canvas_objects (some []) = ([], [])
  ∧ (∀ (xs ys : List Obj) (o : Obj), isCircleObj o = false →
      isLineObj o = false →
      parse_canvas_objects (some (xs ++ o :: ys)) =
        parse_canvas_objects (some (xs ++ ys)))
  ∧ (∀ o : Obj, (o.type = some "circle" ∨ o.type = some "ellipse") →
      o.left = none → o.top = none → o.radiusX = none → o.rx = none →
      o.radiusY = none → o.ry = none →
      ((parse_canvas_objects (some [o])).1).map (fun n => (n.x, n.y)) =
        [(10, 10)])
  ∧ (∀ (o : Obj) (v : Rat), isLineObj o = true → o.x1 = some v →
      (parse_canvas_objects (some [o])).2 =
        [{ x1 := some v, y1 := o.y1, x2 := o.x2, y2 := o.y2,
           type := color_to_type (getStroke o), raw := o }])
  ∧ (∀ (o : Obj) (pts : List Pt), isLineObj o = true → o.x1 = none →
      o.points = some pts → pts.length ≥ 2 →
      (parse_canvas_objects (some [o])).2 =
        [{ x1 := some (o.left.getD 0 + (pts.headD {}).x.getD 0),
           y1 := some (o.top.getD 0 + (pts.headD {}).y.getD 0),
           x2 := some (o.left.getD 0 + (pts.getLastD {}).x.getD 0),
           y2 := some (o.top.getD 0 + (pts.getLastD {}).y.getD 0),
           type := color_to_type (getStroke o), raw := o }])
  ∧ (∀ o : Obj, isLineObj o = true → o.x1 = none →
      (o.points.getD []).length < 2 →
      (parse_canvas_objects (some [o])).2 =
        [{ x1 := some (o.left.getD 0),
           y1 := some (o.top.getD 0),
           x2 := some (o.left.getD 0 + o.width.getD 0),
           y2 := some (o.top.getD 0 + o.height.getD 0),
           type := color_to_type (getStroke o), raw := o }]) := by
  refine ⟨rfl, rfl, ?_, ?_, ?_, ?_, ?_⟩
  · intro xs ys o hC hL
    show parseGo (xs ++ o :: ys) 0 = parseGo (xs ++ ys) 0
    exact parseGo_skip o hC hL xs ys 0
  · intro o hty hl ht hx hrx hy hry
    have hC : isCircleObj o = true := by
      rcases hty with h | h <;> simp [isCircleObj, h]
    simp [parse_canvas_objects, parseGo, hC, mkNode, hl, ht, hx, hrx, hy, hry,
      getKey2]
  · intro o v hL hx1
    have hC := line_not_circle o hL
    simp [parse_canvas_objects, parseGo, hC, hL, mkEdge, hx1]
  · intro o pts hL hx1 hpts hlen
    have hC := line_not_circle o hL
    simp [parse_canvas_objects, parseGo, hC, hL, mkEdge, hx1, hpts, hlen]
  · intro o hL hx1 hlen
    have hC := line_not_circle o hL
    have hnot : ¬ ((o.points.getD []).length ≥ 2) := by omega
    simp [parse_canvas_objects, parseGo, hC, hL, mkEdge, hx1, hnot]

/-- C6 counterexample: for the line shape with `x1 = 5` and `y1` absent,
the emitted edge's `y1` is absent (`None`), not the claimed default 0. -/
theorem line_missing_fields_not_defaulted :
    ((parse_canvas_objects (some [partialLineObj])).2).map Edge.y1 = [none]
  ∧ ((parse_canvas_objects (some [partialLineObj])).2).map Edge.y1 ≠
      [some (0 : Rat)] := by
  decide

/-- C6 witness: the amended theorem applied to a concrete rectangle
(skipped), a concrete bare circle (defaults), the partial line, a
concrete freeform path (points fallback) and a concrete bare line
(bounding-box fallback). -/
theorem parse_total_amended_witness :
    parse_canvas_objects (some ([] ++ rectObj :: [])) =
      parse_canvas_objects (some ([] ++ []))
  ∧ ((parse_canvas_objects (some [bareCircleObj])).1).map
      (fun n => (n.x, n.y)) = [(10, 10)]
  ∧ (parse_canvas_objects (some [partialLineObj])).2 =
      [{ x1 := some 5, y1 := partialLineObj.y1, x2 := partialLineObj.x2,
         y2 := partialLineObj.y2,
         type := color_to_type (getStroke partialLineObj),
         raw := partialLineObj }]
  ∧ (parse_canvas_objects (some [pathObj])).2 =
      [{ x1 := some (pathObj.left.getD 0 + (pathPts.headD {}).x.getD 0),
         y1 := some (pathObj.top.getD 0 + (pathPts.headD {}).y.getD 0),
         x2 := some (pathObj.left.getD 0 + (pathPts.getLastD {}).x.getD 0),
         y2 := some (pathObj.top.getD 0 + (pathPts.getLastD {}).y.getD 0),
         type := color_to_type (getStroke pathObj), raw := pathObj }]
  ∧ (parse_canvas_objects (some [bareLineObj])).2 =
      [{ x1 := some (bareLineObj.left.getD 0),
         y1 := some (bareLineObj.top.getD 0),
         x2 := some (bareLineObj.left.getD 0 + bareLineObj.width.getD 0),
         y2 := some (bareLineObj.top.getD 0 + bareLineObj.height.getD 0),
         type := color_to_type (getStroke bareLineObj), raw := bareLineObj }] :=
  ⟨parse_total_amended.2.2.1 [] [] rectObj (by decide) (by decide),
   parse_total_amended.2.2.2.1 bareCircleObj (Or.inl rfl) rfl rfl rfl rfl rfl rfl,
   parse_total_amended.2.2.2.2.1 partialLineObj 5 (by decide) rfl,
   parse_total_amended.2.2.2.2.2.1 pathObj pathPts (by decide) rfl rfl (by decide),
   parse_total_amended.2.2.2.2.2.2 bareLineObj (by decide) rfl (by decide)⟩

/-- C7: every emitted coordinate pair is `(x, canvasHeight - y)` — x
unchanged, y vertically flipped — formatted at fixed one-decimal
precision; in particular a node at canvas y=50 with height 400 is
emitted at y=350.0. -/
theorem tikz_coordinate_transform :
    (∀ (h : Rat) (n : Node),
      tikz_node_line h n =
        "\\node[draw, circle, inner sep=1pt] (n" ++ toString n.id ++ ") at ("
          ++ fmt1 n.x ++ "," ++ fmt1 (h - n.y) ++ ") \x7b" ++ toString n.id
          ++ "\x7d;")
  ∧ (∀ (h x1 y1 x2 y2 : Rat) (typ : String) (raw : Obj),
      tikz_edge_line h (mkE x1 y1 x2 y2 typ raw) =
        some (tikz_draw_template (tikz_edge_style typ).2 (fmt1 x1)
          (fmt1 (h - y1)) (tikz_edge_style typ).1 (fmt1 x2) (fmt1 (h - y2))))
  ∧ tikz_node_line 400 { id := 0, x := 100, y := 50, type := "vértice (vertex)", raw := {} } =
      "\\node[draw, circle, inner sep=1pt] (n0) at (100.0,350.0) \x7b0\x7d;" := by
  refine ⟨fun h n => rfl, fun h x1 y1 x2 y2 typ raw => rfl, by decide⟩

/-- C1: the TikZ generator emits the FORWARD arrow directive `->` for an
Antifermion edge, not the backward `<-` the spec states: the type string
`"antifermion (←/→)"` contains `"fermion"`, so the `elif "fermion"`
branch fires first and the dedicated `elif "antifermion"` branch
(`style = "<-"`) is dead code. -/
theorem antifermion_tikz_forward_arrow :
    tikz_edge_style "antifermion (←/→)" = ("->", "")
  ∧ tikz_edge_style "antifermion (←/→)" ≠ ("<-", "")
  ∧ tikz_edge_line 400 antifermionEdge =
      some "\\draw (10.0,380.0) -> -- (110.0,390.0);"
  ∧ tikz_edge_style "fermion (→/←)" = ("->", "") := by
  decide

/-- C2 counterexample: an Unknown (`"desconocido"`) edge's emitted path
declaration is not a plain undirected segment — its style component is
the default forward arrow `"->"`, not `""`. -/
theorem unknown_tikz_not_plain :
    tikz_edge_style "desconocido" ≠ ("", "")
  ∧ tikz_edge_style "desconocido" = ("->", "")
  ∧ tikz_edge_line 400 unknownEdge =
      some "\\draw (0.0,400.0) -> -- (100.0,400.0);" := by
  decide

/-- C2 amended: a NeutralLine edge is emitted as a plain undirected
segment with no photon/gluon style, but an Unknown edge keeps the
generator's default forward-arrow directive `->` (with no photon/gluon
style). -/
theorem neutral_plain_unknown_arrow :
    (∀ (h x1 y1 x2 y2 : Rat) (raw : Obj),
      tikz_edge_line h (mkE x1 y1 x2 y2 "línea neutra (línea simple)" raw) =
        some (tikz_draw_template "" (fmt1 x1) (fmt1 (h - y1)) "" (fmt1 x2)
          (fmt1 (h - y2))))
  ∧ (∀ (h x1 y1 x2 y2 : Rat) (raw : Obj),
      tikz_edge_line h (mkE x1 y1 x2 y2 "desconocido" raw) =
        some (tikz_draw_template "" (fmt1 x1) (fmt1 (h - y1)) "->" (fmt1 x2)
          (fmt1 (h - y2))))
  ∧ tikz_edge_style "línea neutra (línea simple)" = ("", "")
  ∧ tikz_edge_style "desconocido" = ("->", "") := by
  refine ⟨fun h x1 y1 x2 y2 raw => rfl, fun h x1 y1 x2 y2 raw => rfl,
    by decide, by decide⟩

/-- C8: the raster renderer draws Fermion and Antifermion edges as solid
lines of width 2 with an arrowhead at 70% of the way from endpoint 1
toward endpoint 2 pointing along the segment (the identical rule for
both types); Photon edges dash-dot with no arrowhead, Gluon edges dashed
with no arrowhead, Unknown edges solid dark gray with no arrowhead. -/
theorem render_edge_styling :
    (∀ (x1 y1 x2 y2 : Rat) (raw : Obj),
      render_edge (mkE x1 y1 x2 y2 "fermion (→/←)" raw) =
        some [Draw.line (x1, y1) (x2, y2) "solid" 2 "#1f77b4",
              Draw.arrow (x1 + 7/10 * (x2 - x1), y1 + 7/10 * (y2 - y1))
                (x1 + 7/10 * (x2 - x1) + (x2 - x1) * (1/1000),
                 y1 + 7/10 * (y2 - y1) + (y2 - y1) * (1/1000))
                "-|>" 15 "#1f77b4" 0])
  ∧ (∀ (x1 y1 x2 y2 : Rat) (raw : Obj),
      render_edge (mkE x1 y1 x2 y2 "antifermion (←/→)" raw) =
        some [Draw.line (x1, y1) (x2, y2) "solid" 2 "#1f77b4",
              Draw.arrow (x1 + 7/10 * (x2 - x1), y1 + 7/10 * (y2 - y1))
                (x1 + 7/10 * (x2 - x1) + (x2 - x1) * (1/1000),
                 y1 + 7/10 * (y2 - y1) + (y2 - y1) * (1/1000))
                "-|>" 15 "#1f77b4" 0])
  ∧ (∀ (x1 y1 x2 y2 : Rat) (raw : Obj),
      render_edge (mkE x1 y1 x2 y2 "fotón (photon)" raw) =
        some [Draw.line (x1, y1) (x2, y2) "dashdot" 2 "#2ca02c"])
  ∧ (∀ (x1 y1 x2 y2 : Rat) (raw : Obj),
      render_edge (mkE x1 y1 x2 y2 "gluón (gluon)" raw) =
        some [Draw.line (x1, y1) (x2, y2) "dashed" 2 "#d62728"])
  ∧ (∀ (x1 y1 x2 y2 : Rat) (raw : Obj),
      render_edge (mkE x1 y1 x2 y2 "desconocido" raw) =
        some [Draw.line (x1, y1) (x2, y2) "solid" 2 "#222222"]) := by
  refine ⟨fun x1 y1 x2 y2 raw => rfl, fun x1 y1 x2 y2 raw => rfl,
    fun x1 y1 x2 y2 raw => rfl, fun x1 y1 x2 y2 raw => rfl,
    fun x1 y1 x2 y2 raw => rfl⟩

/-- C9: both export button handlers signal the user-facing empty
condition exactly when the node list and the edge list are both empty,
and proceed with the export otherwise. -/
theorem export_empty_guard (nodes : List Node) (edges : List Edge) :
    (isErr (png_export_click nodes edges) = true ↔ nodes = [] ∧ edges = [])
  ∧ (isErr (tikz_export_click nodes edges) = true ↔ nodes = [] ∧ edges = []) := by
  by_cases h : nodes.length + edges.length = 0
  · obtain ⟨h1, h2⟩ := Nat.add_eq_zero.mp h
    simp [isErr, png_export_click, tikz_export_click, h,
      List.length_eq_zero.mp h1, List.length_eq_zero.mp h2]
  · have hne : ¬(nodes = [] ∧ edges = []) := by
      rintro ⟨h1, h2⟩
      exact h (by simp [h1, h2])
    simp [isErr, png_export_click, tikz_export_click, h, hne]

/-- C10: the raster renderer draws every Antifermion edge with the
Fermion display color `#1f77b4`; the dedicated Antifermion branch (color
`#ff7f0e`) is unreachable for every possible type string, because any
string containing `"antifermion"` also contains `"fermion"` and the
Fermion branch is tested first. -/
theorem antifermion_render_fermion_color :
    render_edge_style "antifermion (←/→)" =
      { color := "#1f77b4", linestyle := "solid", arrow := true }
  ∧ (∀ typ : String, (render_edge_style typ).color ≠ "#ff7f0e")
  ∧ (∀ (x1 y1 x2 y2 : Rat) (raw : Obj),
      (render_edge (mkE x1 y1 x2 y2 "antifermion (←/→)" raw)).map
        (List.map drawColor) = some ["#1f77b4", "#1f77b4"]) := by
  refine ⟨by decide, ?_, fun x1 y1 x2 y2 raw => rfl⟩
  intro typ
  unfold render_edge_style
  by_cases hf : isSub "fermion" typ = true
  · simp only [hf, if_true]
    decide
  · have haf : isSub "antifermion" typ = false := by
      by_contra hne
      have h2 : isSub "antifermion" typ = true := by
        revert hne
        cases isSub "antifermion" typ <;> simp
      exact hf (isSub_fermion_of_antifermion typ h2)
    simp only [hf, haf, if_false, Bool.false_eq_true]
    split_ifs <;> decide
